import Mathlib

/-!
Verification development for the bob-localhost-tunnel repository.

The repository has two programs:
  * a relay server (tunnel-relay.js): accepts WebSocket connections from
    tunnel clients, registers tunnels in a `Map` keyed by a random subdomain,
    forwards public HTTP requests over the WebSocket, and correlates the
    eventual `response` messages back to the waiting HTTP response objects
    through a `pendingResponses` map;
  * a tunnel client: connects to the relay, answers `request` messages by
    forwarding them to a local HTTP service, and reconnects with exponential
    backoff.

The definitions below are a shallow embedding of the relevant parts of both
programs.  JavaScript `Map` objects and plain objects used as dictionaries
are embedded as association lists with first-match lookup; randomness
(`crypto.randomBytes`, `Math.random`), clock reads (`Date.now`) and socket
identities are passed in as explicit arguments.
-/

/-! ## Association-list embedding of JS Map / object-dictionary operations -/

/-- First-match lookup, the semantics of `Map.prototype.get` (and of reading a
property of an object used as a dictionary, where keys are unique). -/
def mapGet {α : Type} : List (String × α) → String → Option α
  | [], _ => none
  | p :: rest, k => if p.1 = k then some p.2 else mapGet rest k

/-- `Map.prototype.set`: replace the entry in place when the key is present,
append it otherwise.  This is also the semantics of adding / overwriting a
property on a JS object (insertion order preserved, existing key keeps its
position). -/
def mapSet {α : Type} : List (String × α) → String → α → List (String × α)
  | [], k, v => [(k, v)]
  | p :: rest, k, v => if p.1 = k then (k, v) :: rest else p :: mapSet rest k v

/-- `Map.prototype.delete`. -/
def mapDelete {α : Type} : List (String × α) → String → List (String × α)
  | [], _ => []
  | p :: rest, k => if p.1 = k then mapDelete rest k else p :: mapDelete rest k

/-- `Map.prototype.size`. -/
def mapSize {α : Type} (m : List (String × α)) : Nat := m.length

theorem mapGet_mapDelete_self {α : Type} (m : List (String × α)) (k : String) :
    mapGet (mapDelete m k) k = none := by
  induction m with
  | nil => rfl
  | cons p rest ih =>
      by_cases h : p.1 = k
      · simp [mapDelete, h, ih]
      · simp [mapDelete, mapGet, h, ih]

theorem mapGet_mapDelete_ne {α : Type} (m : List (String × α)) (k k' : String)
    (h : k ≠ k') : mapGet (mapDelete m k') k = mapGet m k := by
  induction m with
  | nil => rfl
  | cons p rest ih =>
      by_cases hp : p.1 = k'
      · simp [mapDelete, mapGet, hp, Ne.symm h, ih]
      · by_cases hk : p.1 = k
        · simp [mapDelete, mapGet, hp, hk, h]
        · simp [mapDelete, mapGet, hp, hk, ih]

theorem mapGet_mapSet_self {α : Type} (m : List (String × α)) (k : String) (v : α) :
    mapGet (mapSet m k v) k = some v := by
  induction m with
  | nil => simp [mapSet, mapGet]
  | cons p rest ih =>
      by_cases h : p.1 = k
      · simp [mapSet, mapGet, h]
      · simp [mapSet, mapGet, h, ih]

theorem mapGet_mapSet_ne {α : Type} (m : List (String × α)) (k k' : String) (v : α)
    (h : k ≠ k') : mapGet (mapSet m k' v) k = mapGet m k := by
  induction m with
  | nil => simp [mapSet, mapGet, Ne.symm h]
  | cons p rest ih =>
      by_cases hp : p.1 = k'
      · simp [mapSet, mapGet, hp, Ne.symm h, ih]
      · by_cases hk : p.1 = k
        · simp [mapSet, mapGet, hp, hk, h]
        · simp [mapSet, mapGet, hp, hk, ih]

theorem mapGet_eq_none_of_keys {α : Type} (m : List (String × α)) (k : String)
    (h : ∀ p ∈ m, p.1 ≠ k) : mapGet m k = none := by
  induction m with
  | nil => rfl
  | cons p rest ih =>
      have hp : p.1 ≠ k := h p (List.mem_cons_self p rest)
      have hrest : ∀ q ∈ rest, q.1 ≠ k := fun q hq => h q (List.mem_cons_of_mem p hq)
      simp [mapGet, hp, ih hrest]

/-! ## Shared wire-protocol data -/

/-- An HTTP response as written into a public caller's response object:
`res.writeHead(status, headers); res.end(body)`. -/
structure HttpResponse where
  status : Nat
  headers : List (String × String)
  body : String
deriving Repr, DecidableEq

/-- The `response` message a client sends over the WebSocket:
`{type:"response", id, status, headers, body}`. -/
structure ResponseMsg where
  id : String
  status : Nat
  headers : List (String × String)
  body : String
deriving Repr, DecidableEq

/-- The `request` message the relay sends over the WebSocket:
`{type:"request", id, method, path, headers, body}` where `body` is
`body || undefined`. -/
structure RequestMsg where
  id : String
  method : String
  path : String
  headers : List (String × String)
  body : Option String
deriving Repr, DecidableEq

/-! ## Relay server state (tunnel-relay.js) -/

/-- `readyState` values of a `ws` WebSocket. -/
inductive WsReadyState where
  | connecting
  | wsOpen
  | closing
  | wsClosed
deriving Repr, DecidableEq

/-- The relay's view of one WebSocket: its identity, its `readyState`, and
`_socket.remoteAddress` (used when generating request ids). -/
structure Channel where
  chanId : Nat
  readyState : WsReadyState
  remoteAddress : String
deriving Repr, DecidableEq

/-- A registry entry: `tunnels.set(subdomain, { ws: ws, localPort: msg.localPort || 3000 })`. -/
structure Tunnel where
  ws : Channel
  localPort : Nat
deriving Repr, DecidableEq

/-- A pending entry `pendingResponses.set(requestId, { res, timer })`.
`sinkId` stands for the identity of the `res` object.  `tunnelId` is ghost
metadata (the spec's `PendingRequest.tunnelIdentifier`): it records which
tunnel the request was forwarded through; no relay operation reads it. -/
structure PendingEntry where
  sinkId : Nat
  tunnelId : String
deriving Repr, DecidableEq

/-- The relay's two global maps. -/
structure RelayState where
  tunnels : List (String × Tunnel)
  pendingResponses : List (String × PendingEntry)
deriving Repr, DecidableEq

/-- A write performed on a public caller's response object, tagged with the
request id it resolves and the identity of the `res` object. -/
structure SinkWrite where
  reqId : String
  sinkId : Nat
  resp : HttpResponse
deriving Repr, DecidableEq

def BASE_DOMAIN : String := "tunnel.localhost"
def HTTP_PORT : Nat := 8081
def REQUEST_TIMEOUT : Nat := 30000

/-- JS `v || d` for an optional numeric field: `undefined` and `0` are falsy. -/
def jsOrDefault (v : Option Nat) (d : Nat) : Nat :=
  match v with
  | none => d
  | some 0 => d
  | some n => n

/-- The lowercase hex digit for a value below 16, as produced by
`Buffer.prototype.toString('hex')`: codepoint 48 is the digit zero,
codepoint 97 is lowercase a. -/
def hexDigit (n : Nat) : Char :=
  if n < 10 then Char.ofNat (48 + n) else Char.ofNat (87 + n)

/-- Two-character lowercase hex rendering of one byte. -/
def byteToHex (b : Nat) : String :=
  String.mk [hexDigit (b / 16 % 16), hexDigit (b % 16)]

/-- `generateSubdomain()`: `crypto.randomBytes(6).toString('hex')`.
The six random bytes are passed in explicitly. -/
def generateSubdomain (bytes : List Nat) : String :=
  String.join (bytes.map byteToHex)

/-- `handleInit(ws, msg)`: registers the freshly generated subdomain in the
registry (via `Map.set`, which silently replaces any existing entry for the
same key) and replies with the `ready` message.  `sd` is the value returned
by `generateSubdomain()`. -/
def handleInit (st : RelayState) (ws : Channel) (msgLocalPort : Option Nat)
    (sd : String) : RelayState × String × String :=
  let url := "http://" ++ sd ++ "." ++ BASE_DOMAIN ++ ":" ++ toString HTTP_PORT
  ({ st with tunnels := mapSet st.tunnels sd ⟨ws, jsOrDefault msgLocalPort 3000⟩ },
   url, sd)

/-- `handleResponse(msg)`: look the correlation id up in `pendingResponses`;
if absent, log and return (the response is ignored); if present, cancel the
timer, delete the entry, and write status/headers/body to the caller. -/
def handleResponse (st : RelayState) (m : ResponseMsg) : RelayState × List SinkWrite :=
  match mapGet st.pendingResponses m.id with
  | none => (st, [])
  | some p =>
      ({ st with pendingResponses := mapDelete st.pendingResponses m.id },
       [⟨m.id, p.sinkId, ⟨m.status, m.headers, m.body⟩⟩])

/-- The timeout timer armed in `forwardRequest`: when it fires it deletes the
entry and writes a 504.  A timer only fires while it has not been cleared;
`clearTimeout` is called exactly when `handleResponse` removes the entry, so
"the timer for `id` can still fire" coincides with "`id` is still in the
table", and the `!res.headersSent` guard is true exactly then.  Firing a
cleared timer is therefore embedded as the `none` branch (a no-op). -/
def expireTimer (st : RelayState) (id : String) : RelayState × List SinkWrite :=
  match mapGet st.pendingResponses id with
  | none => (st, [])
  | some p =>
      ({ st with pendingResponses := mapDelete st.pendingResponses id },
       [⟨id, p.sinkId, ⟨504, [("Content-Type", "text/plain")], "Gateway Timeout"⟩⟩])

/-- `startsWithChars s p`: the character list `p` is a prefix of `s`. -/
def startsWithChars : List Char → List Char → Bool
  | _, [] => true
  | [], _ :: _ => false
  | c :: cs, p :: ps => if c = p then startsWithChars cs ps else false

/-- JS `s.startsWith(pre)`. -/
def strStartsWith (s pre : String) : Bool := startsWithChars s.data pre.data

/-- The `ws.on('close')` handler for a session whose handshake registered
`subdomain` (`none` when the handshake never happened): delete the tunnel,
then fail — with a 502 — every pending entry whose REQUEST ID STARTS WITH the
subdomain, deleting it from the table.  (This prefix test is the code's
attempt at attributing pending requests to the tunnel.) -/
def closeCleanup (st : RelayState) (subdomain : Option String) : RelayState × List SinkWrite :=
  match subdomain with
  | none => (st, [])
  | some sd =>
      let st1 : RelayState := { st with tunnels := mapDelete st.tunnels sd }
      let failed := st1.pendingResponses.filter (fun p => strStartsWith p.1 sd)
      let kept := st1.pendingResponses.filter (fun p => ¬ strStartsWith p.1 sd)
      ({ st1 with pendingResponses := kept },
       failed.map (fun p =>
         ⟨p.1, p.2.sinkId, ⟨502, [("Content-Type", "text/plain")], "Tunnel disconnected"⟩⟩))

/-- `const requestId = remoteAddress + '-' + Date.now() + '-' + Math.random()`;
the clock value and the decimal rendering of the random number are passed in. -/
def makeRequestId (remoteAddress : String) (now : Nat) (rand : String) : String :=
  remoteAddress ++ "-" ++ toString now ++ "-" ++ rand

/-- A decoded public HTTP request as the relay's request handler sees it:
`req.headers.host` (possibly absent), `req.method`, `req.url`, `req.headers`,
and the accumulated request body. -/
structure PublicRequest where
  host : Option String
  method : String
  url : String
  headers : List (String × String)
  body : String
deriving Repr, DecidableEq

/-- What the public-request path does with a request: answer it directly, or
send a `request` message over the tunnel's WebSocket (registering a pending
entry). -/
inductive PublicOutcome where
  | direct (resp : HttpResponse)
  | forwarded (msg : RequestMsg)
deriving Repr, DecidableEq

/-- `forwardRequest(tunnel, req, res)`: 503 when the WebSocket is not OPEN;
otherwise generate a request id, send the `request` message (body is
`body || undefined`), arm the 30s timer and store the pending entry.
`sd` is the registry key the caller looked the tunnel up under (ghost,
only stored in the entry's ghost field); `sinkId` identifies `res`. -/
def forwardRequest (st : RelayState) (sd : String) (tunnel : Tunnel)
    (req : PublicRequest) (sinkId : Nat) (now : Nat) (rand : String) :
    RelayState × PublicOutcome :=
  if tunnel.ws.readyState ≠ WsReadyState.wsOpen then
    (st, PublicOutcome.direct ⟨503, [("Content-Type", "text/plain")], "Tunnel unavailable"⟩)
  else
    let requestId := makeRequestId tunnel.ws.remoteAddress now rand
    ({ st with pendingResponses := mapSet st.pendingResponses requestId ⟨sinkId, sd⟩ },
     PublicOutcome.forwarded
       ⟨requestId, req.method, req.url, req.headers,
        if req.body = "" then none else some req.body⟩)

/-- `host.split('.')[0].split(':')[0]` on `req.headers.host || ''`.
`s.split(sep)[0]` is the prefix of `s` up to (not including) the first
occurrence of `sep` — i.e. `takeWhile (· ≠ sep)` on the characters — so the
two indexed splits compose to two `takeWhile` passes. -/
def extractSubdomain (host : String) : String :=
  String.mk ((host.data.takeWhile (fun ch => ch ≠ '.')).takeWhile (fun ch => ch ≠ ':'))

/-- Body of the `/_health` endpoint:
`JSON.stringify({status:"ok", active_tunnels, pending_requests})`. -/
def healthBody (st : RelayState) : String :=
  "\x7b\"status\":\"ok\",\"active_tunnels\":" ++ toString (mapSize st.tunnels) ++
    ",\"pending_requests\":" ++ toString (mapSize st.pendingResponses) ++ "\x7d"

/-- The relay's public HTTP request handler: health check first, then tunnel
lookup by the extracted subdomain (404 with a diagnostic body when absent),
then `forwardRequest`. -/
def handlePublicRequest (st : RelayState) (req : PublicRequest) (sinkId : Nat)
    (now : Nat) (rand : String) : RelayState × PublicOutcome :=
  let host := req.host.getD ""
  let sd := extractSubdomain host
  if req.url = "/_health" then
    (st, PublicOutcome.direct ⟨200, [("Content-Type", "application/json")], healthBody st⟩)
  else
    match mapGet st.tunnels sd with
    | none =>
        (st, PublicOutcome.direct
          ⟨404, [("Content-Type", "text/plain")],
           "Tunnel not found: " ++ sd ++ "\n\nActive tunnels: " ++
             toString (mapSize st.tunnels)⟩)
    | some tunnel => forwardRequest st sd tunnel req sinkId now rand

/-! ## Relay session message dispatch (the `ws.on('message')` handler) -/

/-- A decoded inbound WebSocket message on the relay side, i.e. the possible
shapes of `JSON.parse(data)` as far as the `switch (msg.type)` cares:
`init`, `response`, `pong`, or any other `type` tag. -/
inductive RelayIncoming where
  | initMsg (localPort : Option Nat)
  | responseMsg (m : ResponseMsg)
  | pongMsg
  | unknown (typeTag : String)
deriving Repr, DecidableEq

/-- A raw frame: either it parses to a message, or `JSON.parse` throws. -/
inductive Frame where
  | wellFormed (m : RelayIncoming)
  | malformed
deriving Repr, DecidableEq

/-- The per-connection closure state: the `subdomain` variable, `null` until
`handleInit` assigns it. -/
structure Session where
  subdomain : Option String
deriving Repr, DecidableEq

/-- Does this frame make the handler throw?  Only `JSON.parse` failure does:
every decoded message is dispatched by a `switch` whose cases do not throw,
and an unknown `type` tag falls through silently. -/
def frameThrows : Frame → Bool
  | Frame.malformed => true
  | Frame.wellFormed _ => false

/-- The `ws.on('message')` handler: `try { parse; switch(msg.type) } catch
{ ws.close() }`.  Returns the new global state, the new session state, and
whether the handler closed the channel.  `sd` is the random draw consumed if
the message is `init`. -/
def onMessage (st : RelayState) (sess : Session) (ch : Channel) (f : Frame)
    (sd : String) : RelayState × Session × Bool :=
  match f with
  | Frame.malformed => (st, sess, true)
  | Frame.wellFormed m =>
      match m with
      | RelayIncoming.initMsg lp =>
          let res := handleInit st ch lp sd
          (res.1, { sess with subdomain := some sd }, false)
      | RelayIncoming.responseMsg r => ((handleResponse st r).1, sess, false)
      | RelayIncoming.pongMsg => (st, sess, false)
      | RelayIncoming.unknown _ => (st, sess, false)

/-! ## Event-trace semantics for the pending-request table -/

/-- The two events that can resolve a pending entry while it waits: a
`response` message arriving on some tunnel channel, or the entry's timeout
timer firing. -/
inductive RelayEvent where
  | responseArrives (m : ResponseMsg)
  | timerFires (id : String)
deriving Repr, DecidableEq

/-- One event-loop step. -/
def relayStep (st : RelayState) (e : RelayEvent) : RelayState × List SinkWrite :=
  match e with
  | RelayEvent.responseArrives m => handleResponse st m
  | RelayEvent.timerFires id => expireTimer st id

/-- Run a sequence of events, accumulating every sink write. -/
def runRelay (st : RelayState) : List RelayEvent → RelayState × List SinkWrite
  | [] => (st, [])
  | e :: es =>
      let r := relayStep st e
      let rest := runRelay r.1 es
      (rest.1, r.2 ++ rest.2)

/-- Does this event complete (or expire) the pending entry with this id? -/
def firesId (id : String) : RelayEvent → Bool
  | RelayEvent.responseArrives m => m.id = id
  | RelayEvent.timerFires i => i = id

/-- Number of writes delivered to the request with this id. -/
def writesFor (id : String) (ws : List SinkWrite) : Nat :=
  (ws.filter (fun w => w.reqId = id)).length

/-! ## Tunnel client (tunnel-client.js) -/

/-- What the client's call to the local service produced: a decoded response,
or the `req.on('error')` rejection with the error message. -/
structure LocalResponse where
  status : Nat
  headers : List (String × String)
  body : String
deriving Repr, DecidableEq

/-- `handleRequest(msg)`: forward to localhost and, whether the forward
resolves or rejects, send exactly one `response` carrying `msg.id`
(success: the forwarded status/headers/body; failure: 502 with a diagnostic
body).  The returned list is the sequence of `ws.send` calls performed. -/
def clientHandleRequest (msg : RequestMsg) (result : Except String LocalResponse) :
    List ResponseMsg :=
  match result with
  | Except.ok r => [⟨msg.id, r.status, r.headers, r.body⟩]
  | Except.error e =>
      [⟨msg.id, 502, [("Content-Type", "text/plain")], "Tunnel Error: " ++ e⟩]

/-- The headers object `forwardToLocalhost` builds for the local request:
`{ ...headers, 'host': 'localhost:' + localPort, 'x-forwarded-proto': 'https' }`
(object spread, later keys overwriting earlier ones in place). -/
def forwardHeaders (localPort : Nat) (hs : List (String × String)) :
    List (String × String) :=
  mapSet (mapSet hs "host" ("localhost:" ++ toString localPort))
    "x-forwarded-proto" "https"

def MAX_RECONNECT_DELAY : Nat := 30000

/-- `Math.min(1000 * Math.pow(2, reconnectAttempts), MAX_RECONNECT_DELAY)`. -/
def reconnectDelay (attempts : Nat) : Nat :=
  min (1000 * 2 ^ attempts) MAX_RECONNECT_DELAY

/-- The client's connection-supervisor state: the `reconnectAttempts` counter. -/
structure ClientConn where
  reconnectAttempts : Nat
deriving Repr, DecidableEq

/-- The events the supervisor reacts to: the socket `open` event, the `ready`
message, and the socket `close` event. -/
inductive ClientEvent where
  | openEvt
  | readyEvt
  | closeEvt
deriving Repr, DecidableEq

/-- One supervisor step, returning the scheduled reconnect delay when the
event was a close.  `open` runs `reconnectAttempts = 0`; the `ready` case of
the message handler only logs; `close` runs `reconnect()`, which computes the
delay from the current counter and then increments it. -/
def clientStep (c : ClientConn) : ClientEvent → ClientConn × Option Nat
  | ClientEvent.openEvt => (⟨0⟩, none)
  | ClientEvent.readyEvt => (c, none)
  | ClientEvent.closeEvt =>
      (⟨c.reconnectAttempts + 1⟩, some (reconnectDelay c.reconnectAttempts))

/-- Run a sequence of supervisor events, collecting the reconnect delays in
order. -/
def runClient (c : ClientConn) : List ClientEvent → ClientConn × List Nat
  | [] => (c, [])
  | e :: es =>
      let r := clientStep c e
      let rest := runClient r.1 es
      (rest.1, (r.2.toList) ++ rest.2)

/-! ## Helper lemmas -/

theorem length_byteToHex (b : Nat) : (byteToHex b).length = 2 := rfl

theorem length_generateSubdomain (bytes : List Nat) :
    (generateSubdomain bytes).length = 2 * bytes.length := by
  induction bytes with
  | nil => rfl
  | cons b bs ih =>
      have h : generateSubdomain (b :: bs) = byteToHex b ++ generateSubdomain bs := by
        apply String.ext
        simp [generateSubdomain, String.join_eq]
      rw [h, String.length_append, ih, List.length_cons, length_byteToHex]
      ring

theorem writesFor_append (id : String) (a b : List SinkWrite) :
    writesFor id (a ++ b) = writesFor id a + writesFor id b := by
  simp [writesFor, List.filter_append]

theorem runClient_replicate_close (a n : Nat) :
    runClient ⟨a⟩ (List.replicate n ClientEvent.closeEvt) =
      (⟨a + n⟩, (List.range n).map (fun i => reconnectDelay (a + i))) := by
  induction n generalizing a with
  | zero => simp [runClient]
  | succ n ih =>
      rw [List.replicate_succ]
      have hmap : (List.range (n + 1)).map (fun i => reconnectDelay (a + i)) =
          reconnectDelay a :: (List.range n).map (fun i => reconnectDelay (a + 1 + i)) := by
        rw [List.range_succ_eq_map, List.map_cons, List.map_map]
        have : ((fun i => reconnectDelay (a + i)) ∘ Nat.succ) =
            (fun i => reconnectDelay (a + 1 + i)) := by
          funext i
          simp [Function.comp]
          congr 1
          omega
        simp [this]
      simp [runClient, clientStep, ih (a + 1), hmap]
      omega

/-! ## Claim C6 -/

/-- Claim C6: for every request answered before the deadline (its correlation
id is still in the pending table when the `response` message arrives), the
status, headers and body the relay writes to the public caller are exactly the
status, headers and body carried in the client's `response` message, the
entry is removed, and no other write occurs. -/
theorem handleResponse_delivers_exact (st : RelayState) (m : ResponseMsg)
    (p : PendingEntry) (h : mapGet st.pendingResponses m.id = some p) :
    handleResponse st m =
      ({ st with pendingResponses := mapDelete st.pendingResponses m.id },
       [⟨m.id, p.sinkId, ⟨m.status, m.headers, m.body⟩⟩]) := by
  simp [handleResponse, h]

/-- Witness for C6: a concrete pending entry answered with a concrete
`response` message. -/
theorem handleResponse_delivers_exact_witness :
    handleResponse ⟨[], [("r1", ⟨5, "t"⟩)]⟩ ⟨"r1", 200, [("a", "b")], "hello"⟩ =
      (⟨[], []⟩, [⟨"r1", 5, ⟨200, [("a", "b")], "hello"⟩⟩]) := by
  have h := handleResponse_delivers_exact ⟨[], [("r1", ⟨5, "t"⟩)]⟩
    ⟨"r1", 200, [("a", "b")], "hello"⟩ ⟨5, "t"⟩ (by decide)
  simpa using h

/-! ## Claim C7 -/

/-- Claim C7: for every `request` message the client receives, it performs
exactly one `ws.send` of a `response` message carrying the same correlation
id: on success the forwarded status/headers/body, on failure a 502 with a
diagnostic body naming the error. -/
theorem clientHandleRequest_exactly_one (msg : RequestMsg) (r : LocalResponse)
    (e : String) (result : Except String LocalResponse) :
    clientHandleRequest msg (Except.ok r) =
      [⟨msg.id, r.status, r.headers, r.body⟩] ∧
    clientHandleRequest msg (Except.error e) =
      [⟨msg.id, 502, [("Content-Type", "text/plain")], "Tunnel Error: " ++ e⟩] ∧
    (clientHandleRequest msg result).length = 1 ∧
    (clientHandleRequest msg result).all (fun rm => rm.id == msg.id) = true := by
  refine ⟨rfl, rfl, ?_, ?_⟩ <;> cases result <;> simp [clientHandleRequest]

/-! ## Claim C10 -/

/-- Claim C10: the headers the client sends to the local service are the
forwarded headers with `host` overwritten to `localhost:<localPort>` and
`x-forwarded-proto` set to `https`; every other header field is looked up
unchanged from the original request's headers. -/
theorem forwardHeaders_spec (localPort : Nat) (hs : List (String × String))
    (k : String) (h1 : k ≠ "host") (h2 : k ≠ "x-forwarded-proto") :
    mapGet (forwardHeaders localPort hs) "host" =
      some ("localhost:" ++ toString localPort) ∧
    mapGet (forwardHeaders localPort hs) "x-forwarded-proto" = some "https" ∧
    mapGet (forwardHeaders localPort hs) k = mapGet hs k := by
  refine ⟨?_, ?_, ?_⟩
  · rw [forwardHeaders, mapGet_mapSet_ne _ _ _ _ (by decide), mapGet_mapSet_self]
  · rw [forwardHeaders, mapGet_mapSet_self]
  · rw [forwardHeaders, mapGet_mapSet_ne _ _ _ _ h2, mapGet_mapSet_ne _ _ _ _ h1]

/-- Witness for C10: concrete headers containing a `host`, an unrelated
header, and an `x-forwarded-proto`. -/
theorem forwardHeaders_spec_witness :
    mapGet (forwardHeaders 3000 [("host", "abc.tunnel.localhost:8081"), ("accept", "text/html")])
      "host" = some "localhost:3000" ∧
    mapGet (forwardHeaders 3000 [("host", "abc.tunnel.localhost:8081"), ("accept", "text/html")])
      "x-forwarded-proto" = some "https" ∧
    mapGet (forwardHeaders 3000 [("host", "abc.tunnel.localhost:8081"), ("accept", "text/html")])
      "accept" = mapGet [("host", "abc.tunnel.localhost:8081"), ("accept", "text/html")] "accept" := by
  have h := forwardHeaders_spec 3000
    [("host", "abc.tunnel.localhost:8081"), ("accept", "text/html")]
    "accept" (by decide) (by decide)
  simpa using h

/-! ## Claim C8 -/

/-- Claim C8: for every non-health public request whose extracted subdomain
has no registered tunnel, the relay answers 404 with a body naming the
subdomain and the active tunnel count, leaving the state unchanged and
forwarding nothing; and for every such request whose subdomain is registered
but whose WebSocket is not OPEN, it answers 503 "Tunnel unavailable", again
without forwarding. -/
theorem publicRequest_404_503 (st : RelayState) (req : PublicRequest)
    (sinkId now : Nat) (rand : String) (hurl : req.url ≠ "/_health") :
    (mapGet st.tunnels (extractSubdomain (req.host.getD "")) = none →
      handlePublicRequest st req sinkId now rand =
        (st, PublicOutcome.direct
          ⟨404, [("Content-Type", "text/plain")],
           "Tunnel not found: " ++ extractSubdomain (req.host.getD "") ++
             "\n\nActive tunnels: " ++ toString (mapSize st.tunnels)⟩)) ∧
    (∀ t, mapGet st.tunnels (extractSubdomain (req.host.getD "")) = some t →
      t.ws.readyState ≠ WsReadyState.wsOpen →
      handlePublicRequest st req sinkId now rand =
        (st, PublicOutcome.direct
          ⟨503, [("Content-Type", "text/plain")], "Tunnel unavailable"⟩)) := by
  constructor
  · intro h
    simp [handlePublicRequest, hurl, h]
  · intro t h hws
    simp [handlePublicRequest, hurl, h, forwardRequest, hws]

/-- Witness for C8: the never-registered subdomain `zzzzzz` gets a 404 naming
one active tunnel, and a registered subdomain whose socket has closed gets a
503. -/
theorem publicRequest_404_503_witness :
    handlePublicRequest
        ⟨[("a1b2c3d4e5f6", ⟨⟨1, WsReadyState.wsOpen, "127.0.0.1"⟩, 3000⟩)], []⟩
        ⟨some "zzzzzz.tunnel.localhost:8081", "GET", "/", [], ""⟩ 9 5 "0.1" =
      (⟨[("a1b2c3d4e5f6", ⟨⟨1, WsReadyState.wsOpen, "127.0.0.1"⟩, 3000⟩)], []⟩,
       PublicOutcome.direct
         ⟨404, [("Content-Type", "text/plain")],
          "Tunnel not found: zzzzzz\n\nActive tunnels: 1"⟩) ∧
    handlePublicRequest
        ⟨[("a1b2c3d4e5f6", ⟨⟨1, WsReadyState.wsClosed, "127.0.0.1"⟩, 3000⟩)], []⟩
        ⟨some "a1b2c3d4e5f6.tunnel.localhost:8081", "GET", "/", [], ""⟩ 9 5 "0.1" =
      (⟨[("a1b2c3d4e5f6", ⟨⟨1, WsReadyState.wsClosed, "127.0.0.1"⟩, 3000⟩)], []⟩,
       PublicOutcome.direct
         ⟨503, [("Content-Type", "text/plain")], "Tunnel unavailable"⟩) := by
  constructor
  · have h := (publicRequest_404_503
      ⟨[("a1b2c3d4e5f6", ⟨⟨1, WsReadyState.wsOpen, "127.0.0.1"⟩, 3000⟩)], []⟩
      ⟨some "zzzzzz.tunnel.localhost:8081", "GET", "/", [], ""⟩ 9 5 "0.1"
      (by decide)).1 (by decide)
    rw [h]
    decide
  · have h := (publicRequest_404_503
      ⟨[("a1b2c3d4e5f6", ⟨⟨1, WsReadyState.wsClosed, "127.0.0.1"⟩, 3000⟩)], []⟩
      ⟨some "a1b2c3d4e5f6.tunnel.localhost:8081", "GET", "/", [], ""⟩ 9 5 "0.1"
      (by decide)).2 ⟨⟨1, WsReadyState.wsClosed, "127.0.0.1"⟩, 3000⟩
      (by decide) (by decide)
    rw [h]

/-! ## Claim C9 -/

/-- Claim C9: a public request with no Host header is handled totally: the
extracted subdomain is the empty string; registered identifiers are
12-character hex strings produced by `generateSubdomain`, so the empty string
is never registered and every non-health request without a Host header gets
the 404 response; `/_health` gets the 200 health response whether or not a
Host header is present. -/
theorem noHost_total (st : RelayState) (req : PublicRequest) (sinkId now : Nat)
    (rand : String) (bytes : List Nat)
    (hkeys : ∀ p ∈ st.tunnels, p.1 ≠ "") (hb : bytes.length = 6) :
    extractSubdomain "" = "" ∧
    (generateSubdomain bytes).length = 12 ∧
    (req.url = "/_health" →
      handlePublicRequest st req sinkId now rand =
        (st, PublicOutcome.direct
          ⟨200, [("Content-Type", "application/json")], healthBody st⟩)) ∧
    (req.host = none → req.url ≠ "/_health" →
      handlePublicRequest st req sinkId now rand =
        (st, PublicOutcome.direct
          ⟨404, [("Content-Type", "text/plain")],
           "Tunnel not found: " ++ "" ++ "\n\nActive tunnels: " ++
             toString (mapSize st.tunnels)⟩)) := by
  refine ⟨by decide, ?_, ?_, ?_⟩
  · rw [length_generateSubdomain, hb]
  · intro hurl
    simp [handlePublicRequest, hurl]
  · intro hhost hurl
    have hex : extractSubdomain "" = "" := by decide
    have hnone : mapGet st.tunnels "" = none := mapGet_eq_none_of_keys _ _ hkeys
    simp [handlePublicRequest, hurl, hhost, hex, hnone]

/-- Witness for C9: a Host-less request against a state holding one tunnel
registered under a generated subdomain. -/
theorem noHost_total_witness :
    extractSubdomain "" = "" ∧
    (generateSubdomain [161, 178, 195, 212, 229, 246]).length = 12 ∧
    handlePublicRequest
        ⟨[("a1b2c3d4e5f6", ⟨⟨1, WsReadyState.wsOpen, "127.0.0.1"⟩, 3000⟩)], []⟩
        ⟨none, "GET", "/_health", [], ""⟩ 9 5 "0.1" =
      (⟨[("a1b2c3d4e5f6", ⟨⟨1, WsReadyState.wsOpen, "127.0.0.1"⟩, 3000⟩)], []⟩,
       PublicOutcome.direct
         ⟨200, [("Content-Type", "application/json")],
          "\x7b\"status\":\"ok\",\"active_tunnels\":1,\"pending_requests\":0\x7d"⟩) ∧
    handlePublicRequest
        ⟨[("a1b2c3d4e5f6", ⟨⟨1, WsReadyState.wsOpen, "127.0.0.1"⟩, 3000⟩)], []⟩
        ⟨none, "GET", "/", [], ""⟩ 9 5 "0.1" =
      (⟨[("a1b2c3d4e5f6", ⟨⟨1, WsReadyState.wsOpen, "127.0.0.1"⟩, 3000⟩)], []⟩,
       PublicOutcome.direct
         ⟨404, [("Content-Type", "text/plain")],
          "Tunnel not found: \n\nActive tunnels: 1"⟩) := by
  have h := noHost_total
    ⟨[("a1b2c3d4e5f6", ⟨⟨1, WsReadyState.wsOpen, "127.0.0.1"⟩, 3000⟩)], []⟩
    ⟨none, "GET", "/", [], ""⟩ 9 5 "0.1" [161, 178, 195, 212, 229, 246]
    (by decide) (by decide)
  have h2 := noHost_total
    ⟨[("a1b2c3d4e5f6", ⟨⟨1, WsReadyState.wsOpen, "127.0.0.1"⟩, 3000⟩)], []⟩
    ⟨none, "GET", "/_health", [], ""⟩ 9 5 "0.1" [161, 178, 195, 212, 229, 246]
    (by decide) (by decide)
  refine ⟨h.1, h.2.1, ?_, ?_⟩
  · rw [h2.2.2.1 (by decide)]
    decide
  · rw [h.2.2.2 rfl (by decide)]
    decide

/-! ## Claim C2 -/

theorem relayStep_not_fires (st : RelayState) (id : String) (e : RelayEvent)
    (h : firesId id e = false) :
    writesFor id (relayStep st e).2 = 0 ∧
    mapGet (relayStep st e).1.pendingResponses id = mapGet st.pendingResponses id := by
  cases e with
  | responseArrives m =>
      have hid : m.id ≠ id := by simpa [firesId] using h
      cases hm : mapGet st.pendingResponses m.id with
      | none => simp [relayStep, handleResponse, hm, writesFor]
      | some p =>
          constructor
          · simp [relayStep, handleResponse, hm, writesFor, hid]
          · simp [relayStep, handleResponse, hm,
              mapGet_mapDelete_ne _ _ _ (Ne.symm hid)]
  | timerFires i =>
      have hid : i ≠ id := by simpa [firesId] using h
      cases hm : mapGet st.pendingResponses i with
      | none => simp [relayStep, expireTimer, hm, writesFor]
      | some p =>
          constructor
          · simp [relayStep, expireTimer, hm, writesFor, hid]
          · simp [relayStep, expireTimer, hm,
              mapGet_mapDelete_ne _ _ _ (Ne.symm hid)]

theorem relayStep_fires_present (st : RelayState) (id : String) (e : RelayEvent)
    (hf : firesId id e = true) (p : PendingEntry)
    (hm : mapGet st.pendingResponses id = some p) :
    writesFor id (relayStep st e).2 = 1 ∧
    mapGet (relayStep st e).1.pendingResponses id = none := by
  cases e with
  | responseArrives m =>
      have hid : m.id = id := by simpa [firesId] using hf
      subst hid
      simp [relayStep, handleResponse, hm, writesFor, mapGet_mapDelete_self]
  | timerFires i =>
      have hid : i = id := by simpa [firesId] using hf
      subst hid
      simp [relayStep, expireTimer, hm, writesFor, mapGet_mapDelete_self]

theorem relayStep_absent (st : RelayState) (id : String) (e : RelayEvent)
    (hm : mapGet st.pendingResponses id = none) :
    writesFor id (relayStep st e).2 = 0 ∧
    mapGet (relayStep st e).1.pendingResponses id = none := by
  cases e with
  | responseArrives m =>
      by_cases hid : m.id = id
      · subst hid
        simp [relayStep, handleResponse, hm, writesFor]
      · cases hm2 : mapGet st.pendingResponses m.id with
        | none => simp [relayStep, handleResponse, hm2, writesFor, hm]
        | some p =>
            constructor
            · simp [relayStep, handleResponse, hm2, writesFor, hid]
            · simp [relayStep, handleResponse, hm2,
                mapGet_mapDelete_ne _ _ _ (Ne.symm hid), hm]
  | timerFires i =>
      by_cases hid : i = id
      · subst hid
        simp [relayStep, expireTimer, hm, writesFor]
      · cases hm2 : mapGet st.pendingResponses i with
        | none => simp [relayStep, expireTimer, hm2, writesFor, hm]
        | some p =>
            constructor
            · simp [relayStep, expireTimer, hm2, writesFor, hid]
            · simp [relayStep, expireTimer, hm2,
                mapGet_mapDelete_ne _ _ _ (Ne.symm hid), hm]

theorem runRelay_writesFor (id : String) (events : List RelayEvent)
    (st : RelayState) :
    writesFor id (runRelay st events).2 =
      (if (mapGet st.pendingResponses id).isSome && events.any (firesId id)
       then 1 else 0) := by
  induction events generalizing st with
  | nil => simp [runRelay, writesFor]
  | cons e es ih =>
      have hrun : (runRelay st (e :: es)).2 =
          (relayStep st e).2 ++ (runRelay (relayStep st e).1 es).2 := rfl
      rw [hrun, writesFor_append]
      by_cases hf : firesId id e = true
      · cases hm : mapGet st.pendingResponses id with
        | none =>
            have h1 := relayStep_absent st id e hm
            rw [h1.1, ih ((relayStep st e).1)]
            simp [h1.2, hm]
        | some p =>
            have h1 := relayStep_fires_present st id e hf p hm
            rw [h1.1, ih ((relayStep st e).1)]
            simp [h1.2, hm, hf]
      · have hf' : firesId id e = false := by simpa using hf
        have h1 := relayStep_not_fires st id e hf'
        rw [h1.1, ih ((relayStep st e).1)]
        simp [h1.2, hf']

/-- Claim C2: over any sequence of response arrivals and timer firings, a
pending request's sink is written exactly once when the entry is present and
some event fires its id, and never more than once in any case (the count is
0 when no event fires it); expiry writes the 504 Gateway Timeout and removes
the entry; a `response` whose id is not in the table is ignored: no state
change and no write. -/
theorem pending_sink_exactly_once (st : RelayState) (id : String)
    (events : List RelayEvent) :
    writesFor id (runRelay st events).2 =
      (if (mapGet st.pendingResponses id).isSome && events.any (firesId id)
       then 1 else 0) ∧
    (∀ p, mapGet st.pendingResponses id = some p →
      expireTimer st id =
        ({ st with pendingResponses := mapDelete st.pendingResponses id },
         [⟨id, p.sinkId,
           ⟨504, [("Content-Type", "text/plain")], "Gateway Timeout"⟩⟩]) ∧
      mapGet (mapDelete st.pendingResponses id) id = none) ∧
    (∀ m : ResponseMsg, mapGet st.pendingResponses m.id = none →
      handleResponse st m = (st, [])) := by
  refine ⟨runRelay_writesFor id events st, ?_, ?_⟩
  · intro p hp
    exact ⟨by simp [expireTimer, hp], mapGet_mapDelete_self _ _⟩
  · intro m hm
    simp [handleResponse, hm]

/-- Witness for C2: a concrete entry whose deadline fires first; the late
response that follows is ignored, and the total number of writes is one. -/
theorem pending_sink_exactly_once_witness :
    writesFor "r1" (runRelay ⟨[], [("r1", ⟨5, "t"⟩)]⟩
      [RelayEvent.timerFires "r1",
       RelayEvent.responseArrives ⟨"r1", 200, [], "late"⟩]).2 = 1 ∧
    expireTimer ⟨[], [("r1", ⟨5, "t"⟩)]⟩ "r1" =
      (⟨[], []⟩,
       [⟨"r1", 5, ⟨504, [("Content-Type", "text/plain")], "Gateway Timeout"⟩⟩]) ∧
    handleResponse ⟨[], []⟩ ⟨"r1", 200, [], "late"⟩ = (⟨[], []⟩, []) := by
  have h := pending_sink_exactly_once ⟨[], [("r1", ⟨5, "t"⟩)]⟩ "r1"
    [RelayEvent.timerFires "r1", RelayEvent.responseArrives ⟨"r1", 200, [], "late"⟩]
  refine ⟨?_, ?_, ?_⟩
  · rw [h.1]
    decide
  · have h2 := (h.2.1 ⟨5, "t"⟩ (by decide)).1
    rw [h2]
    decide
  · exact (pending_sink_exactly_once ⟨[], []⟩ "r1" []).2.2
      ⟨"r1", 200, [], "late"⟩ (by decide)

/-! ## Claim C1 -/

/-- Claim C1 (failing input): a tunnel registered as `a1b2c3d4e5f6` with one
pending request created for it by `forwardRequest` — its id is
`127.0.0.1-1700000000000-0.5`, built from the socket's remote address, the
clock and a random number.  When the tunnel's channel closes, the close
handler matches pending ids with `reqId.startsWith(subdomain)`; the id does
not start with the subdomain, so the handler writes no 502 and the entry —
whose ghost `tunnelId` is exactly the closed tunnel's identifier — survives
to fire the 30s timer later, contradicting the claim. -/
theorem closeCleanup_leaves_pending :
    (closeCleanup
        ⟨[("a1b2c3d4e5f6", ⟨⟨1, WsReadyState.wsOpen, "127.0.0.1"⟩, 3000⟩)],
         [(makeRequestId "127.0.0.1" 1700000000000 "0.5",
           ⟨7, "a1b2c3d4e5f6"⟩)]⟩
        (some "a1b2c3d4e5f6")).2 = [] ∧
    mapGet (closeCleanup
        ⟨[("a1b2c3d4e5f6", ⟨⟨1, WsReadyState.wsOpen, "127.0.0.1"⟩, 3000⟩)],
         [(makeRequestId "127.0.0.1" 1700000000000 "0.5",
           ⟨7, "a1b2c3d4e5f6"⟩)]⟩
        (some "a1b2c3d4e5f6")).1.pendingResponses
      (makeRequestId "127.0.0.1" 1700000000000 "0.5") =
      some ⟨7, "a1b2c3d4e5f6"⟩ := by
  decide

/-! ## Claim C3 -/

/-- Claim C3 (failing input): the registry already maps `aabbccddeeff` to a
tunnel on channel 1 and `generateSubdomain` draws the six bytes that encode
to `aabbccddeeff` again.  `handleInit` performs no collision check: the
colliding identifier is committed anyway — even though it was registered at
that moment (`isSome`) — and the prior tunnel's entry is silently replaced
by the new channel, contradicting the retry-until-unique claim. -/
theorem handleInit_commits_collision :
    generateSubdomain [170, 187, 204, 221, 238, 255] = "aabbccddeeff" ∧
    (mapGet
        (⟨[("aabbccddeeff", ⟨⟨1, WsReadyState.wsOpen, "10.0.0.1"⟩, 3000⟩)], []⟩ :
          RelayState).tunnels "aabbccddeeff").isSome = true ∧
    (handleInit
        ⟨[("aabbccddeeff", ⟨⟨1, WsReadyState.wsOpen, "10.0.0.1"⟩, 3000⟩)], []⟩
        ⟨2, WsReadyState.wsOpen, "10.0.0.2"⟩ (some 4000) "aabbccddeeff").1.tunnels =
      [("aabbccddeeff", ⟨⟨2, WsReadyState.wsOpen, "10.0.0.2"⟩, 4000⟩)] ∧
    (handleInit
        ⟨[("aabbccddeeff", ⟨⟨1, WsReadyState.wsOpen, "10.0.0.1"⟩, 3000⟩)], []⟩
        ⟨2, WsReadyState.wsOpen, "10.0.0.2"⟩ (some 4000) "aabbccddeeff").2.2 =
      "aabbccddeeff" := by
  decide

/-! ## Claim C4 -/

/-- Counterexample to claim C4 as stated: before the handshake (the session's
`subdomain` is still `null`), a well-formed `pong` message and a well-formed
message with an unknown type tag are both dispatched without closing the
channel — the relay has no handshake gating at all, and only a frame that
makes the handler throw (malformed JSON) is answered with `ws.close()`. -/
theorem preHandshake_nonInit_not_closed :
    (onMessage ⟨[], []⟩ ⟨none⟩ ⟨3, WsReadyState.wsOpen, "127.0.0.1"⟩
        (Frame.wellFormed RelayIncoming.pongMsg) "s0").2.2 = false ∧
    (onMessage ⟨[], []⟩ ⟨none⟩ ⟨3, WsReadyState.wsOpen, "127.0.0.1"⟩
        (Frame.wellFormed (RelayIncoming.unknown "bogus")) "s0").2.2 = false := by
  decide

/-- Claim C4 (amended): for every message received on a channel — before or
after the handshake — the relay closes the channel exactly when processing
the frame throws, i.e. when the frame is not valid JSON; a well-formed
non-`init` message received before the handshake is dispatched by the same
`switch` as afterwards (`response` goes through the global pending lookup,
`pong` and unknown type tags are ignored) and does not close the channel. -/
theorem onMessage_closes_iff_throws (st : RelayState) (sess : Session)
    (ch : Channel) (f : Frame) (sd : String) :
    (onMessage st sess ch f sd).2.2 = frameThrows f := by
  cases f with
  | malformed => rfl
  | wellFormed m => cases m <;> rfl

/-! ## Claim C5 -/

/-- Counterexample to claim C5 as stated: after five consecutive connection
failures the socket opens but the connection drops again before any `ready`
message arrives.  The code resets `reconnectAttempts` in the `open` handler,
so the next retry delay is 1000 ms — not `min(1000·2^5, 30000) = 30000` ms as
"reset only on successful handshake (receipt of ready)" would give. -/
theorem backoff_reset_on_open_not_ready :
    (runClient ⟨0⟩
        [ClientEvent.closeEvt, ClientEvent.closeEvt, ClientEvent.closeEvt,
         ClientEvent.closeEvt, ClientEvent.closeEvt, ClientEvent.openEvt,
         ClientEvent.closeEvt]).2 =
      [1000, 2000, 4000, 8000, 16000, 1000] ∧
    (1000 : Nat) ≠ min (1000 * 2 ^ 5) 30000 := by
  decide

/-- Claim C5 (amended): on N consecutive connection failures the Nth retry
delay equals `min(1000 · 2^(N-1), 30000)` and the attempts counter increments
on each failure; the counter is reset to zero by the socket `open` event —
before the handshake completes — while receipt of `ready` leaves it
unchanged. -/
theorem backoff_delay_formula (n i : Nat) (hi : i < n) (c : ClientConn) :
    (runClient ⟨0⟩ (List.replicate n ClientEvent.closeEvt)).2 =
      (List.range n).map reconnectDelay ∧
    (runClient ⟨0⟩ (List.replicate n ClientEvent.closeEvt)).1.reconnectAttempts = n ∧
    ((runClient ⟨0⟩ (List.replicate n ClientEvent.closeEvt)).2).getD i 0 =
      min (1000 * 2 ^ i) 30000 ∧
    clientStep c ClientEvent.openEvt = (⟨0⟩, none) ∧
    clientStep c ClientEvent.readyEvt = (c, none) := by
  have h := runClient_replicate_close 0 n
  have hmap : (List.range n).map (fun j => reconnectDelay (0 + j)) =
      (List.range n).map reconnectDelay := by
    simp
  refine ⟨?_, ?_, ?_, rfl, rfl⟩
  · rw [h, hmap]
  · rw [h]
    simp
  · rw [h, hmap]
    have hlen : i < ((List.range n).map reconnectDelay).length := by
      simpa using hi
    rw [List.getD_eq_getElem _ _ hlen]
    simp [reconnectDelay, MAX_RECONNECT_DELAY, hi]

/-- Witness for C5 (amended), at N = 6: the sixth consecutive failure's delay
is `min(1000·2^5, 30000) = 30000` — the cap — and the counter stands at 6. -/
theorem backoff_delay_formula_witness :
    ((runClient ⟨0⟩ (List.replicate 6 ClientEvent.closeEvt)).2).getD 5 0 = 30000 ∧
    (runClient ⟨0⟩ (List.replicate 6 ClientEvent.closeEvt)).1.reconnectAttempts = 6 ∧
    clientStep ⟨6⟩ ClientEvent.openEvt = (⟨0⟩, none) ∧
    clientStep ⟨6⟩ ClientEvent.readyEvt = (⟨6⟩, none) := by
  have h := backoff_delay_formula 6 5 (by decide) ⟨6⟩
  refine ⟨?_, h.2.1, h.2.2.2.1, h.2.2.2.2⟩
  rw [h.2.2.1]
  decide
